import Mathlib

/-!
Shallow embedding of the `okta-revoke-session` action (bundled script,
`src/unnamed/part_003`): authentication-header resolution, base-URL
resolution, the session-revocation `invoke` handler and the recovery
`error` handler.  HTTP is modelled by an oracle `Nat → Response` giving
the response to the n-th `fetch` call of a run; every handler returns its
result together with a `Trace` recording, in order, the requests it
issued and the `setTimeout` delays it awaited.
-/

namespace OktaRevoke

/-- A loosely typed JavaScript parameter value (enough structure for the
`userId` validation, which tests truthiness and `typeof x === 'string'`). -/
inductive JSValue where
  | str (s : String)
  | num (n : Int)
  | boolean (b : Bool)
  | null
  deriving Repr, DecidableEq

/-- JavaScript truthiness of a `JSValue`. -/
def JSValue.truthy : JSValue → Bool
  | .str s => !(s == "")
  | .num n => !(n == 0)
  | .boolean b => b
  | .null => false

/-- `typeof v === 'string'`. -/
def JSValue.isStr : JSValue → Bool
  | .str _ => true
  | _ => false

/-- Truthiness of a possibly-`undefined` value (`none` = `undefined`). -/
def jsDefinedTruthy : Option JSValue → Bool
  | none => false
  | some v => v.truthy

/-- `typeof x === 'string'` for a possibly-`undefined` value. -/
def jsIsString : Option JSValue → Bool
  | none => false
  | some v => v.isStr

/-- Truthiness of a possibly-`undefined` string-valued field. -/
def jsTruthyStr : Option String → Bool
  | none => false
  | some s => !(s == "")

/-- `x || d` on a possibly-`undefined` string (falsy = `undefined` or `""`). -/
def jsOrStr (x : Option String) (d : String) : String :=
  match x with
  | none => d
  | some s => if s == "" then d else s

/-- `String.prototype.includes`. -/
def jsIncludes (s sub : String) : Bool :=
  decide (sub.toList <:+: s.toList)

/-- `String.prototype.startsWith`. -/
def jsStartsWith (s p : String) : Bool :=
  p.toList.isPrefixOf s.toList

/-- `String.prototype.endsWith`, for a one-character suffix. -/
def jsEndsWith (s p : String) : Bool :=
  p.toList.isSuffixOf s.toList

/-- Longest leading run of decimal digits. -/
def takeDigits (cs : List Char) : List Char :=
  cs.takeWhile (·.isDigit)

/-- Value of a list of decimal digits. -/
def digitsToNat (cs : List Char) : Nat :=
  cs.foldl (fun acc c => acc * 10 + (c.toNat - 48)) 0

/-- JavaScript `parseInt(s, 10)`: skip leading whitespace, optional sign,
then the longest digit prefix; `none` models `NaN` (no digits found). -/
def parseIntJS (s : String) : Option Int :=
  let cs := s.toList.dropWhile (fun c => c == ' ' || c == '\t' || c == '\n' || c == '\r')
  match cs with
  | '-' :: rest =>
    let ds := takeDigits rest
    if ds.isEmpty then none else some (-(digitsToNat ds : Int))
  | '+' :: rest =>
    let ds := takeDigits rest
    if ds.isEmpty then none else some (digitsToNat ds)
  | rest =>
    let ds := takeDigits rest
    if ds.isEmpty then none else some (digitsToNat ds)

/-- UTF-8 bytes of one character (as `Nat`s). -/
def utf8Bytes (c : Char) : List Nat :=
  let n := c.toNat
  if n < 128 then [n]
  else if n < 2048 then [192 + n / 64, 128 + n % 64]
  else if n < 65536 then [224 + n / 4096, 128 + (n / 64) % 64, 128 + n % 64]
  else [240 + n / 262144, 128 + (n / 4096) % 64, 128 + (n / 64) % 64, 128 + n % 64]

/-- UTF-8 bytes of a string (`Buffer.from(s)`). -/
def strBytes (s : String) : List Nat :=
  (s.toList.map utf8Bytes).flatten

/-- The base64 alphabet. -/
def base64Alphabet : List Char :=
  "ABCDEFGHIJKLMNOPQRSTUVWXYZabcdefghijklmnopqrstuvwxyz0123456789+/".toList

/-- Character of a 6-bit group. -/
def b64c (n : Nat) : Char :=
  base64Alphabet.getD n 'A'

/-- Base64 encoding of a byte list, with `=` padding. -/
def base64EncodeList : List Nat → List Char
  | [] => []
  | [b1] => [b64c (b1 / 4), b64c ((b1 % 4) * 16), '=', '=']
  | [b1, b2] => [b64c (b1 / 4), b64c ((b1 % 4) * 16 + b2 / 16), b64c ((b2 % 16) * 4), '=']
  | b1 :: b2 :: b3 :: rest =>
      b64c (b1 / 4) :: b64c ((b1 % 4) * 16 + b2 / 16) ::
      b64c ((b2 % 16) * 4 + b3 / 64) :: b64c (b3 % 64) :: base64EncodeList rest

/-- `Buffer.from(s).toString('base64')`. -/
def base64Encode (bytes : List Nat) : String :=
  String.mk (base64EncodeList bytes)

/-- Characters `encodeURIComponent` leaves unescaped. -/
def isUriUnreserved (c : Char) : Bool :=
  c.isAlphanum || c == '-' || c == '_' || c == '.' || c == '!' || c == '~' ||
  c == '*' || c.toNat == 39 || c == '(' || c == ')'

/-- Uppercase hexadecimal digit. -/
def hexDigit (n : Nat) : Char :=
  "0123456789ABCDEF".toList.getD n '0'

/-- Percent-encoding of a single byte. -/
def pctByte (b : Nat) : List Char :=
  ['%', hexDigit (b / 16), hexDigit (b % 16)]

/-- JavaScript `encodeURIComponent`. -/
def encodeURIComponent (s : String) : String :=
  String.mk ((s.toList.map (fun c =>
    if isUriUnreserved c then [c] else ((utf8Bytes c).map pctByte).flatten)).flatten)

/-- The secret bundle (`context.secrets`); `none` models an absent key. -/
structure Secrets where
  BEARER_AUTH_TOKEN : Option String := none
  BASIC_USERNAME : Option String := none
  BASIC_PASSWORD : Option String := none
  OAUTH2_AUTHORIZATION_CODE_ACCESS_TOKEN : Option String := none
  OAUTH2_CLIENT_CREDENTIALS_CLIENT_SECRET : Option String := none
  deriving Repr, DecidableEq

/-- An environment bundle with the keys the script reads. -/
structure EnvBundle where
  ADDRESS : Option String := none
  OAUTH2_CLIENT_CREDENTIALS_TOKEN_URL : Option String := none
  OAUTH2_CLIENT_CREDENTIALS_CLIENT_ID : Option String := none
  OAUTH2_CLIENT_CREDENTIALS_SCOPE : Option String := none
  OAUTH2_CLIENT_CREDENTIALS_AUDIENCE : Option String := none
  OAUTH2_CLIENT_CREDENTIALS_AUTH_STYLE : Option String := none
  RATE_LIMIT_BACKOFF_MS : Option String := none
  SERVICE_ERROR_BACKOFF_MS : Option String := none
  deriving Repr, DecidableEq

/-- The execution context.  The script reads two distinct fields:
`context.environment` (base URL and OAuth2 settings) and `context.env`
(backoff overrides in the `error` handler). -/
structure Context where
  environment : Option EnvBundle := none
  secrets : Option Secrets := none
  env : Option EnvBundle := none
  deriving Repr, DecidableEq

/-- `context.environment || {}`. -/
def Context.environmentOrEmpty (ctx : Context) : EnvBundle :=
  ctx.environment.getD {}

/-- `context.secrets || {}`. -/
def Context.secretsOrEmpty (ctx : Context) : Secrets :=
  ctx.secrets.getD {}

/-- The JSON fields the script inspects in a response body. -/
structure JsonBody where
  access_token : Option String := none
  errorSummary : Option String := none
  deriving Repr, DecidableEq

/-- An HTTP response as observed by the script.  `json = none` models a
body on which `response.json()` rejects. -/
structure Response where
  ok : Bool
  status : Nat
  statusText : String := ""
  json : Option JsonBody := none
  textBody : String := ""
  deriving Repr, DecidableEq

/-- A request issued through `fetch`. -/
structure Request where
  url : String
  method : String
  authorization : Option String := none
  body : Option String := none
  deriving Repr, DecidableEq

/-- A JavaScript `Error`, with the optional `statusCode` property the
script attaches to HTTP failures. -/
structure JSError where
  message : String
  statusCode : Option Nat := none
  deriving Repr, DecidableEq

/-- Observable side effects of a run: the `fetch` requests issued and the
`setTimeout` delays awaited, each in order (`none` delay = `NaN`). -/
structure Trace where
  calls : List Request := []
  sleeps : List (Option Int) := []
  deriving Repr, DecidableEq

/-- One `fetch`: the oracle answers the n-th call of the run. -/
def doFetch (oracle : Nat → Response) (t : Trace) (req : Request) :
    Response × Trace :=
  (oracle t.calls.length, { t with calls := t.calls ++ [req] })

/-- One awaited `setTimeout` delay. -/
def doSleep (t : Trace) (ms : Option Int) : Trace :=
  { t with sleeps := t.sleeps ++ [ms] }

/-- `JSON.stringify` of the body fields the script can see (used only
inside an error message of the token exchange). -/
def jsonStringify (b : JsonBody) : String :=
  "\x7baccess_token:" ++ (jsOrStr b.access_token "undefined") ++
  ",errorSummary:" ++ (jsOrStr b.errorSummary "undefined") ++ "\x7d"

/-- Form-urlencoded rendering of `URLSearchParams`. -/
def formEncode (ps : List (String × String)) : String :=
  String.intercalate "&"
    (ps.map (fun p => encodeURIComponent p.1 ++ "=" ++ encodeURIComponent p.2))

/-- Configuration record passed to `getClientCredentialsToken`
(part_003 lines 22-23). -/
structure CCConfig where
  tokenUrl : Option String
  clientId : Option String
  clientSecret : Option String
  scope : Option String
  audience : Option String
  authStyle : Option String
  deriving Repr, DecidableEq

/-- `getClientCredentialsToken` (part_003 lines 22-79): OAuth2 client
credentials token exchange. -/
def getClientCredentialsToken (config : CCConfig) (oracle : Nat → Response)
    (t : Trace) : Except JSError String × Trace :=
  if !(jsTruthyStr config.tokenUrl) || !(jsTruthyStr config.clientId) ||
      !(jsTruthyStr config.clientSecret) then
    (.error ⟨"OAuth2 Client Credentials flow requires tokenUrl, clientId, and clientSecret", none⟩, t)
  else
    let tokenUrl := config.tokenUrl.getD ""
    let clientId := config.clientId.getD ""
    let clientSecret := config.clientSecret.getD ""
    let params0 := [("grant_type", "client_credentials")]
    let params1 :=
      if jsTruthyStr config.scope then params0 ++ [("scope", config.scope.getD "")]
      else params0
    let params2 :=
      if jsTruthyStr config.audience then params1 ++ [("audience", config.audience.getD "")]
      else params1
    let inParams := config.authStyle == some "InParams"
    let params3 :=
      if inParams then params2 ++ [("client_id", clientId), ("client_secret", clientSecret)]
      else params2
    let authHeader : Option String :=
      if inParams then none
      else some ("Basic " ++ base64Encode (strBytes (clientId ++ ":" ++ clientSecret)))
    let fr := doFetch oracle t ⟨tokenUrl, "POST", authHeader, some (formEncode params3)⟩
    let response := fr.1
    let t1 := fr.2
    if !response.ok then
      let errorText :=
        match response.json with
        | some errorData => jsonStringify errorData
        | none => response.textBody
      (.error ⟨"OAuth2 token request failed: " ++ toString response.status ++ " " ++
        response.statusText ++ " - " ++ errorText, none⟩, t1)
    else
      match response.json with
      | none => (.error ⟨"Unexpected end of JSON input", none⟩, t1)
      | some data =>
        if jsTruthyStr data.access_token then (.ok (data.access_token.getD ""), t1)
        else (.error ⟨"No access_token in OAuth2 response", none⟩, t1)

/-- The `No authentication configured` message (part_003 lines 134-138). -/
def noAuthMessage : String :=
  "No authentication configured. Provide one of: BEARER_AUTH_TOKEN, " ++
  "BASIC_USERNAME/BASIC_PASSWORD, OAUTH2_AUTHORIZATION_CODE_ACCESS_TOKEN, " ++
  "or OAUTH2_CLIENT_CREDENTIALS_*"

/-- `token.startsWith('Bearer ') ? token : 'Bearer ' + token`. -/
def bearerNormalize (token : String) : String :=
  if jsStartsWith token "Bearer " then token else "Bearer " ++ token

/-- `getAuthorizationHeader` (part_003 lines 90-139): first-match-wins
credential resolution over the four supported methods. -/
def getAuthorizationHeader (ctx : Context) (oracle : Nat → Response)
    (t : Trace) : Except JSError String × Trace :=
  let env := ctx.environmentOrEmpty
  let secrets := ctx.secretsOrEmpty
  if jsTruthyStr secrets.BEARER_AUTH_TOKEN then
    (.ok (bearerNormalize (secrets.BEARER_AUTH_TOKEN.getD "")), t)
  else if jsTruthyStr secrets.BASIC_PASSWORD && jsTruthyStr secrets.BASIC_USERNAME then
    (.ok ("Basic " ++ base64Encode (strBytes
      ((secrets.BASIC_USERNAME.getD "") ++ ":" ++ (secrets.BASIC_PASSWORD.getD "")))), t)
  else if jsTruthyStr secrets.OAUTH2_AUTHORIZATION_CODE_ACCESS_TOKEN then
    (.ok (bearerNormalize (secrets.OAUTH2_AUTHORIZATION_CODE_ACCESS_TOKEN.getD "")), t)
  else if jsTruthyStr secrets.OAUTH2_CLIENT_CREDENTIALS_CLIENT_SECRET then
    let tokenUrl := env.OAUTH2_CLIENT_CREDENTIALS_TOKEN_URL
    let clientId := env.OAUTH2_CLIENT_CREDENTIALS_CLIENT_ID
    if !(jsTruthyStr tokenUrl) || !(jsTruthyStr clientId) then
      (.error ⟨"OAuth2 Client Credentials flow requires TOKEN_URL and CLIENT_ID in env", none⟩, t)
    else
      match getClientCredentialsToken
          ⟨tokenUrl, clientId, secrets.OAUTH2_CLIENT_CREDENTIALS_CLIENT_SECRET,
            env.OAUTH2_CLIENT_CREDENTIALS_SCOPE, env.OAUTH2_CLIENT_CREDENTIALS_AUDIENCE,
            env.OAUTH2_CLIENT_CREDENTIALS_AUTH_STYLE⟩ oracle t with
      | (.ok token, t1) => (.ok ("Bearer " ++ token), t1)
      | (.error e, t1) => (.error e, t1)
  else
    (.error ⟨noAuthMessage, none⟩, t)

/-- `getBaseUrl` (part_003 lines 148-158); the first argument is
`params?.address`. -/
def getBaseUrl (addressParam : Option String) (ctx : Context) :
    Except JSError String :=
  let env := ctx.environmentOrEmpty
  let address : Option String :=
    if jsTruthyStr addressParam then addressParam else env.ADDRESS
  if !(jsTruthyStr address) then
    .error ⟨"No URL specified. Provide address parameter or ADDRESS environment variable", none⟩
  else
    let a := address.getD ""
    .ok (if jsEndsWith a "/" then a.dropRight 1 else a)

/-- `revokeUserSessions` (part_003 lines 172-188): the DELETE call. -/
def revokeUserSessions (userId baseUrl authHeader : String)
    (oracle : Nat → Response) (t : Trace) : Response × Trace :=
  let encodedUserId := encodeURIComponent userId
  let url := baseUrl ++ "/api/v1/users/" ++ encodedUserId ++ "/sessions"
  doFetch oracle t ⟨url, "DELETE", some authHeader, none⟩

/-- The SSWS prefix substitution the handlers apply to a resolved header
(part_003 lines 236-241 in `invoke`, and verbatim again at lines 304-307
in `error`). -/
def applySSWS (authHeader : String) : String :=
  if jsStartsWith authHeader "Bearer " then
    let token := authHeader.drop 7
    if jsStartsWith token "SSWS " then token else "SSWS " ++ token
  else authHeader

/-- Job input parameters of `invoke`. -/
structure Params where
  userId : Option JSValue := none
  address : Option String := none
  deriving Repr, DecidableEq

/-- Success object returned by the handlers (the `revokedAt` wall-clock
timestamp is not modelled; no claim concerns it). -/
structure InvokeResult where
  userId : String
  sessionsRevoked : Bool
  address : String
  recoveryMethod : Option String := none
  deriving Repr, DecidableEq

/-- Error message built for a non-ok revocation response
(part_003 lines 265-277). -/
def revokeFailMessage (response : Response) : String :=
  match response.json with
  | some errorBody =>
    if jsTruthyStr errorBody.errorSummary then
      "Failed to revoke sessions: " ++ errorBody.errorSummary.getD ""
    else
      "Failed to revoke sessions: HTTP " ++ toString response.status
  | none => "Failed to revoke sessions: HTTP " ++ toString response.status

/-- `script.invoke` (part_003 lines 218-283). -/
def scriptInvoke (params : Params) (ctx : Context) (oracle : Nat → Response) :
    Except JSError InvokeResult × Trace :=
  let t : Trace := {}
  if !(jsDefinedTruthy params.userId) || !(jsIsString params.userId) then
    (.error ⟨"Invalid or missing userId parameter", none⟩, t)
  else
    let userId := match params.userId with | some (.str s) => s | _ => ""
    match getBaseUrl params.address ctx with
    | .error e => (.error e, t)
    | .ok baseUrl =>
      match getAuthorizationHeader ctx oracle t with
      | (.error e, t1) => (.error e, t1)
      | (.ok authHeader0, t1) =>
        let authHeader := applySSWS authHeader0
        let rr := revokeUserSessions userId baseUrl authHeader oracle t1
        let response := rr.1
        let t2 := rr.2
        if response.ok then
          (.ok { userId := userId, sessionsRevoked := true, address := baseUrl }, t2)
        else
          (.error ⟨revokeFailMessage response, some response.status⟩, t2)

/-- Parameters passed to the `error` handler (original params plus the
prior failure). -/
structure ErrorParams where
  error : JSError
  userId : String
  address : Option String := none
  deriving Repr, DecidableEq

/-- The rate-limit backoff read in `script.error` (part_003 line 310):
`parseInt(context.env?.RATE_LIMIT_BACKOFF_MS || '30000', 10)`. -/
def rateLimitBackoffMs (ctx : Context) : Option Int :=
  parseIntJS (jsOrStr (ctx.env.bind EnvBundle.RATE_LIMIT_BACKOFF_MS) "30000")

/-- The service-error backoff read in `script.error` (part_003 line 311):
`parseInt(context.env?.SERVICE_ERROR_BACKOFF_MS || '10000', 10)`. -/
def serviceErrorBackoffMs (ctx : Context) : Option Int :=
  parseIntJS (jsOrStr (ctx.env.bind EnvBundle.SERVICE_ERROR_BACKOFF_MS) "10000")

/-- The rate-limit classification (part_003 line 314):
`statusCode === 429 || message.includes('429') || message.includes('rate limit')`. -/
def isRateLimited (e : JSError) : Bool :=
  e.statusCode == some 429 || jsIncludes e.message "429" ||
  jsIncludes e.message "rate limit"

/-- The service-error classification (part_003 line 341):
`[502, 503, 504].includes(statusCode)`. -/
def isServiceErrorStatus (e : JSError) : Bool :=
  e.statusCode == some 502 || e.statusCode == some 503 || e.statusCode == some 504

/-- The terminal message of `script.error` (part_003 line 369). -/
def unrecoverableMessage (userId origMessage : String) : String :=
  "Unrecoverable error revoking sessions for user " ++ userId ++ ": " ++ origMessage

/-- The tail of `script.error` after the rate-limit branch has not
returned (part_003 lines 341-369): the 502/503/504 retry branch followed
by the unrecoverable throw. -/
def errorTail (userId : String) (origErr : JSError) (baseUrl authHeader : String)
    (se : Option Int) (oracle : Nat → Response) (t : Trace) :
    Except JSError InvokeResult × Trace :=
  if isServiceErrorStatus origErr then
    let t2 := doSleep t se
    let rr := revokeUserSessions userId baseUrl authHeader oracle t2
    let retryResponse := rr.1
    let t3 := rr.2
    if retryResponse.ok then
      (.ok { userId := userId, sessionsRevoked := true, address := baseUrl,
             recoveryMethod := some "service_retry" }, t3)
    else
      (.error ⟨unrecoverableMessage userId origErr.message, none⟩, t3)
  else
    (.error ⟨unrecoverableMessage userId origErr.message, none⟩, t)

/-- `script.error` (part_003 lines 291-370): the recovery handler. -/
def scriptError (p : ErrorParams) (ctx : Context) (oracle : Nat → Response) :
    Except JSError InvokeResult × Trace :=
  let t : Trace := {}
  match getBaseUrl p.address ctx with
  | .error e => (.error e, t)
  | .ok baseUrl =>
    match getAuthorizationHeader ctx oracle t with
    | (.error e, t1) => (.error e, t1)
    | (.ok authHeader0, t1) =>
      let authHeader := applySSWS authHeader0
      let rl := rateLimitBackoffMs ctx
      let se := serviceErrorBackoffMs ctx
      if isRateLimited p.error then
        let t2 := doSleep t1 rl
        let rr := revokeUserSessions p.userId baseUrl authHeader oracle t2
        let retryResponse := rr.1
        let t3 := rr.2
        if retryResponse.ok then
          (.ok { userId := p.userId, sessionsRevoked := true, address := baseUrl,
                 recoveryMethod := some "rate_limit_retry" }, t3)
        else
          errorTail p.userId p.error baseUrl authHeader se oracle t3
      else
        errorTail p.userId p.error baseUrl authHeader se oracle t1

/-! Companion definitions naming the four authentication methods and the
fixed resolution order, for stating order properties of
`getAuthorizationHeader`. -/

/-- The four authentication methods. -/
inductive AuthMethod where
  | bearer
  | basic
  | oauthCode
  | oauthCC
  deriving Repr, DecidableEq

/-- Whether a method is configured in a secret bundle, with exactly the
truthiness tests of `getAuthorizationHeader`. -/
def configured (s : Secrets) : AuthMethod → Bool
  | .bearer => jsTruthyStr s.BEARER_AUTH_TOKEN
  | .basic => jsTruthyStr s.BASIC_PASSWORD && jsTruthyStr s.BASIC_USERNAME
  | .oauthCode => jsTruthyStr s.OAUTH2_AUTHORIZATION_CODE_ACCESS_TOKEN
  | .oauthCC => jsTruthyStr s.OAUTH2_CLIENT_CREDENTIALS_CLIENT_SECRET

/-- The fixed resolution order. -/
def resolutionOrder : List AuthMethod :=
  [.bearer, .basic, .oauthCode, .oauthCC]

/-- First configured method in resolution order. -/
def firstConfigured (s : Secrets) : Option AuthMethod :=
  resolutionOrder.find? (configured s)

/-- The header each of the three fetch-free methods resolves to
(`none` for client credentials, whose header needs a token exchange). -/
def methodHeader (s : Secrets) : AuthMethod → Option String
  | .bearer => some (bearerNormalize (s.BEARER_AUTH_TOKEN.getD ""))
  | .basic => some ("Basic " ++ base64Encode (strBytes
      ((s.BASIC_USERNAME.getD "") ++ ":" ++ (s.BASIC_PASSWORD.getD ""))))
  | .oauthCode => some (bearerNormalize (s.OAUTH2_AUTHORIZATION_CODE_ACCESS_TOKEN.getD ""))
  | .oauthCC => none

/-! Concrete fixtures used to instantiate the theorems. -/

/-- A 204 No Content success response. -/
def resp204 : Response := { ok := true, status := 204 }

/-- A 429 failure response. -/
def resp429 : Response := { ok := false, status := 429 }

/-- Oracle answering every call with 204. -/
def oracle204 : Nat → Response := fun _ => resp204

/-- Oracle answering every call with 429. -/
def oracle429 : Nat → Response := fun _ => resp429

/-- Oracle whose first answer fails and whose later answers succeed. -/
def oracleFailThenOk : Nat → Response := fun n => if n == 0 then resp429 else resp204

/-- Environment with only a base address. -/
def envAddr : EnvBundle := { ADDRESS := some "https://x.okta.com" }

/-- Context configured with a Bearer token. -/
def ctxBearer : Context :=
  { environment := some envAddr, secrets := some { BEARER_AUTH_TOKEN := some "tok1" } }

/-- Environment for the OAuth2 client-credentials method. -/
def envCC : EnvBundle :=
  { ADDRESS := some "https://x.okta.com",
    OAUTH2_CLIENT_CREDENTIALS_TOKEN_URL := some "https://t.example/token",
    OAUTH2_CLIENT_CREDENTIALS_CLIENT_ID := some "cid" }

/-- Context configured with OAuth2 client credentials only. -/
def ctxCC : Context :=
  { environment := some envCC,
    secrets := some { OAUTH2_CLIENT_CREDENTIALS_CLIENT_SECRET := some "sec" } }

/-- A successful token-exchange response. -/
def tokenOkResp : Response :=
  { ok := true, status := 200, json := some { access_token := some "tk" } }

/-- A 401 prior failure. -/
def err401 : JSError := { message := "Unauthorized", statusCode := some 401 }

/-- A prior failure with service statusCode 503 whose message also
classifies it as rate-limited. -/
def err503rl : JSError := { message := "rate limit", statusCode := some 503 }

/-- A prior failure with service statusCode 502 whose message contains
"429". -/
def err502rl : JSError := { message := "got 429", statusCode := some 502 }

/-- A rate-limited prior failure. -/
def err429 : JSError := { message := "Failed to revoke sessions: HTTP 429", statusCode := some 429 }

/-- A 404 response with an `errorSummary` JSON body. -/
def resp404 : Response :=
  { ok := false, status := 404,
    json := some { errorSummary := some "Not found: Resource not found" } }

/-- An environment bundle that also carries backoff keys (to show they
are ignored when read from the wrong field). -/
def envWithBackoffKeys : EnvBundle :=
  { ADDRESS := some "https://x.okta.com",
    RATE_LIMIT_BACKOFF_MS := some "1",
    SERVICE_ERROR_BACKOFF_MS := some "2" }

/-- A context whose `env` field is absent while `environment` carries
backoff keys. -/
def ctxEnvAbsent : Context := { environment := some envWithBackoffKeys }

/-- Secrets configuring both the Bearer and the Basic methods. -/
def secretsTwo : Secrets :=
  { BEARER_AUTH_TOKEN := some "tokA",
    BASIC_USERNAME := some "user",
    BASIC_PASSWORD := some "pass" }

/-- Context configuring two authentication methods at once. -/
def ctxTwoMethods : Context :=
  { environment := some envAddr, secrets := some secretsTwo }

/-- Backoff overrides that are non-numeric strings. -/
def envBadBackoff : EnvBundle :=
  { RATE_LIMIT_BACKOFF_MS := some "abc", SERVICE_ERROR_BACKOFF_MS := some "xyz" }

/-- A context whose `env` backoff overrides are non-numeric strings. -/
def ctxBadBackoff : Context := { env := some envBadBackoff }

/-- A context overriding the rate-limit backoff with a numeric string. -/
def ctx42 : Context :=
  { env := some { RATE_LIMIT_BACKOFF_MS := some "42000" } }

/-! Helper lemmas shared by the claim theorems. -/

/-- `includes` holds of the empty search string. -/
theorem jsIncludes_empty (s : String) : jsIncludes s "" = true := by
  simp [jsIncludes]

/-- A string includes any suffix appended to it. -/
theorem jsIncludes_append (a b : String) : jsIncludes (a ++ b) b = true := by
  simp only [jsIncludes, decide_eq_true_eq]
  refine List.IsSuffix.isInfix ⟨a.toList, ?_⟩
  simp [String.toList]

/-- The token exchange never sleeps. -/
theorem getClientCredentialsToken_sleeps (config : CCConfig)
    (oracle : Nat → Response) (t : Trace) :
    (getClientCredentialsToken config oracle t).2.sleeps = t.sleeps := by
  simp only [getClientCredentialsToken, doFetch]
  repeat' split
  all_goals rfl

/-- The token exchange issues exactly one request when it starts, at most
one in all cases. -/
theorem getClientCredentialsToken_calls (config : CCConfig)
    (oracle : Nat → Response) (t : Trace) :
    (getClientCredentialsToken config oracle t).2.calls.length ≤ t.calls.length + 1 := by
  simp only [getClientCredentialsToken, doFetch]
  repeat' split
  all_goals simp

/-- Credential resolution never sleeps. -/
theorem getAuthorizationHeader_sleeps (ctx : Context) (oracle : Nat → Response)
    (t : Trace) : (getAuthorizationHeader ctx oracle t).2.sleeps = t.sleeps := by
  simp only [getAuthorizationHeader]
  repeat' split
  all_goals try rfl
  all_goals
    rename_i heq
    have h2 := getClientCredentialsToken_sleeps
      ⟨ctx.environmentOrEmpty.OAUTH2_CLIENT_CREDENTIALS_TOKEN_URL,
        ctx.environmentOrEmpty.OAUTH2_CLIENT_CREDENTIALS_CLIENT_ID,
        (ctx.secretsOrEmpty).OAUTH2_CLIENT_CREDENTIALS_CLIENT_SECRET,
        ctx.environmentOrEmpty.OAUTH2_CLIENT_CREDENTIALS_SCOPE,
        ctx.environmentOrEmpty.OAUTH2_CLIENT_CREDENTIALS_AUDIENCE,
        ctx.environmentOrEmpty.OAUTH2_CLIENT_CREDENTIALS_AUTH_STYLE⟩ oracle t
    rw [heq] at h2
    exact h2

/-- Credential resolution issues at most one request. -/
theorem getAuthorizationHeader_calls (ctx : Context) (oracle : Nat → Response)
    (t : Trace) :
    (getAuthorizationHeader ctx oracle t).2.calls.length ≤ t.calls.length + 1 := by
  simp only [getAuthorizationHeader]
  repeat' split
  all_goals try simp
  all_goals
    rename_i heq
    have h2 := getClientCredentialsToken_calls
      ⟨ctx.environmentOrEmpty.OAUTH2_CLIENT_CREDENTIALS_TOKEN_URL,
        ctx.environmentOrEmpty.OAUTH2_CLIENT_CREDENTIALS_CLIENT_ID,
        (ctx.secretsOrEmpty).OAUTH2_CLIENT_CREDENTIALS_CLIENT_SECRET,
        ctx.environmentOrEmpty.OAUTH2_CLIENT_CREDENTIALS_SCOPE,
        ctx.environmentOrEmpty.OAUTH2_CLIENT_CREDENTIALS_AUDIENCE,
        ctx.environmentOrEmpty.OAUTH2_CLIENT_CREDENTIALS_AUTH_STYLE⟩ oracle t
    rw [heq] at h2
    exact h2

/-- With a truthy Bearer secret, resolution returns the normalized token
immediately, leaving the trace untouched. -/
theorem getAuthorizationHeader_bearer (ctx : Context) (oracle : Nat → Response)
    (t : Trace) (hb : jsTruthyStr (ctx.secretsOrEmpty).BEARER_AUTH_TOKEN = true) :
    getAuthorizationHeader ctx oracle t =
      (.ok (bearerNormalize ((ctx.secretsOrEmpty).BEARER_AUTH_TOKEN.getD "")), t) := by
  simp only [getAuthorizationHeader]
  simp [hb]

/-! Claim theorems. -/

/-- Claim C2: whenever `params.userId` is missing, empty, or not a
string (i.e. fails the handler's truthiness-and-typeof validation), the
`invoke` entry point fails with the validation error and issues zero
network calls; consequently the revocation request is only ever issued
for a non-empty string `userId`. -/
theorem invoke_rejects_invalid_userId (params : Params) (ctx : Context)
    (oracle : Nat → Response)
    (h : (!(jsDefinedTruthy params.userId) || !(jsIsString params.userId)) = true) :
    scriptInvoke params ctx oracle =
      (.error ⟨"Invalid or missing userId parameter", none⟩, ({} : Trace)) := by
  simp only [scriptInvoke, h]
  rfl

/-- Witness for C2: a numeric `userId` is rejected with no calls. -/
theorem invoke_rejects_invalid_userId_witness :
    scriptInvoke { userId := some (.num 5) } ctxBearer oracle204 =
      (.error ⟨"Invalid or missing userId parameter", none⟩, ({} : Trace)) :=
  invoke_rejects_invalid_userId { userId := some (.num 5) } ctxBearer oracle204 (by decide)

/-- Claim C5: with none of the four authentication methods configured,
`invoke` (after passing validation and base-URL resolution) fails with
the configuration error naming all four accepted secret names, having
issued zero fetch calls. -/
theorem invoke_no_auth_configured (params : Params) (ctx : Context)
    (oracle : Nat → Response) (b : String)
    (hu : (!(jsDefinedTruthy params.userId) || !(jsIsString params.userId)) = false)
    (hb : getBaseUrl params.address ctx = .ok b)
    (h1 : jsTruthyStr (ctx.secretsOrEmpty).BEARER_AUTH_TOKEN = false)
    (h2 : (jsTruthyStr (ctx.secretsOrEmpty).BASIC_PASSWORD &&
           jsTruthyStr (ctx.secretsOrEmpty).BASIC_USERNAME) = false)
    (h3 : jsTruthyStr (ctx.secretsOrEmpty).OAUTH2_AUTHORIZATION_CODE_ACCESS_TOKEN = false)
    (h4 : jsTruthyStr (ctx.secretsOrEmpty).OAUTH2_CLIENT_CREDENTIALS_CLIENT_SECRET = false) :
    scriptInvoke params ctx oracle = (.error ⟨noAuthMessage, none⟩, ({} : Trace)) ∧
    jsIncludes noAuthMessage "BEARER_AUTH_TOKEN" = true ∧
    jsIncludes noAuthMessage "BASIC_USERNAME" = true ∧
    jsIncludes noAuthMessage "BASIC_PASSWORD" = true ∧
    jsIncludes noAuthMessage "OAUTH2_AUTHORIZATION_CODE_ACCESS_TOKEN" = true ∧
    jsIncludes noAuthMessage "OAUTH2_CLIENT_CREDENTIALS_" = true := by
  refine ⟨?_, by set_option maxRecDepth 40000 in decide,
    by set_option maxRecDepth 40000 in decide, by set_option maxRecDepth 40000 in decide,
    by set_option maxRecDepth 40000 in decide, by set_option maxRecDepth 40000 in decide⟩
  simp only [scriptInvoke, hu, Bool.false_eq_true, if_false, hb]
  simp only [getAuthorizationHeader, h1, h2, h3, h4]
  rfl

/-- Witness for C5: empty secret bundle, valid userId and address. -/
theorem invoke_no_auth_configured_witness :
    scriptInvoke { userId := some (.str "u1") }
        { environment := some envAddr } oracle204 =
      (.error ⟨noAuthMessage, none⟩, ({} : Trace)) ∧
    jsIncludes noAuthMessage "BEARER_AUTH_TOKEN" = true ∧
    jsIncludes noAuthMessage "BASIC_USERNAME" = true ∧
    jsIncludes noAuthMessage "BASIC_PASSWORD" = true ∧
    jsIncludes noAuthMessage "OAUTH2_AUTHORIZATION_CODE_ACCESS_TOKEN" = true ∧
    jsIncludes noAuthMessage "OAUTH2_CLIENT_CREDENTIALS_" = true :=
  invoke_no_auth_configured { userId := some (.str "u1") }
    { environment := some envAddr } oracle204 "https://x.okta.com"
    (by decide) (by rfl) (by decide) (by decide) (by decide) (by decide)

/-- Claim C9: the SSWS substitution is applied by the invoking component:
for every resolved header, the DELETE request `invoke` issues carries
`applySSWS` of it — a `Bearer `-prefixed header has the prefix replaced by
`SSWS ` unless the remaining token already starts with `SSWS ` (never
double-prefixed), and a non-Bearer header is sent unchanged.  The
resolver's output `h` is quantified over, so the substitution is not the
resolver's doing. -/
theorem invoke_ssws_substitution (params : Params) (ctx : Context)
    (oracle : Nat → Response) (u b h : String) (t1 : Trace)
    (hu : params.userId = some (.str u)) (hne : u ≠ "")
    (hb : getBaseUrl params.address ctx = .ok b)
    (hauth : getAuthorizationHeader ctx oracle {} = (.ok h, t1)) :
    (scriptInvoke params ctx oracle).2.calls =
      t1.calls ++ [⟨b ++ "/api/v1/users/" ++ encodeURIComponent u ++ "/sessions",
        "DELETE", some (applySSWS h), none⟩] ∧
    (jsStartsWith h "Bearer " = true →
      applySSWS h =
        (if jsStartsWith (h.drop 7) "SSWS " then h.drop 7 else "SSWS " ++ h.drop 7)) ∧
    (jsStartsWith h "Bearer " = false → applySSWS h = h) := by
  have hv : (!(jsDefinedTruthy (some (JSValue.str u))) ||
      !(jsIsString (some (JSValue.str u)))) = false := by
    simp [jsDefinedTruthy, jsIsString, JSValue.truthy, JSValue.isStr, hne]
  refine ⟨?_, ?_, ?_⟩
  · simp only [scriptInvoke, hu, hv, Bool.false_eq_true, if_false, hb, hauth,
      revokeUserSessions, doFetch]
    split <;> rfl
  · intro hs
    simp [applySSWS, hs]
  · intro hs
    simp [applySSWS, hs]

/-- Witness for C9: a Bearer-resolved header is sent with `SSWS `. -/
theorem invoke_ssws_substitution_witness :
    (scriptInvoke { userId := some (.str "u1") } ctxBearer oracle204).2.calls =
      [⟨"https://x.okta.com" ++ "/api/v1/users/" ++ encodeURIComponent "u1" ++ "/sessions",
        "DELETE", some (applySSWS "Bearer tok1"), none⟩] ∧
    (jsStartsWith "Bearer tok1" "Bearer " = true →
      applySSWS "Bearer tok1" =
        (if jsStartsWith ("Bearer tok1".drop 7) "SSWS " then "Bearer tok1".drop 7
         else "SSWS " ++ "Bearer tok1".drop 7)) ∧
    (jsStartsWith "Bearer tok1" "Bearer " = false → applySSWS "Bearer tok1" = "Bearer tok1") :=
  invoke_ssws_substitution { userId := some (.str "u1") } ctxBearer oracle204
    "u1" "https://x.okta.com" "Bearer tok1" {} rfl (by decide) (by rfl) (by rfl)

/-- Claim C6: for every non-ok revocation response, `invoke` throws an
error carrying the response's numeric status code; the message contains
the body's `errorSummary` when the body parses and has one, and otherwise
(parse failure included) is exactly `Failed to revoke sessions: HTTP
<status>`. -/
theorem invoke_nonok_response (params : Params) (ctx : Context)
    (oracle : Nat → Response) (u b h : String) (t1 : Trace) (r : Response)
    (hu : params.userId = some (.str u)) (hne : u ≠ "")
    (hb : getBaseUrl params.address ctx = .ok b)
    (hauth : getAuthorizationHeader ctx oracle {} = (.ok h, t1))
    (hr : oracle t1.calls.length = r)
    (hok : r.ok = false) :
    (scriptInvoke params ctx oracle).1 = .error ⟨revokeFailMessage r, some r.status⟩ ∧
    (∀ body es, r.json = some body → body.errorSummary = some es →
      jsIncludes (revokeFailMessage r) es = true) ∧
    (r.json = none →
      revokeFailMessage r = "Failed to revoke sessions: HTTP " ++ toString r.status) ∧
    (∀ body, r.json = some body → jsTruthyStr body.errorSummary = false →
      revokeFailMessage r = "Failed to revoke sessions: HTTP " ++ toString r.status) := by
  refine ⟨?_, ?_, ?_, ?_⟩
  · have hv : (!(jsDefinedTruthy (some (JSValue.str u))) ||
        !(jsIsString (some (JSValue.str u)))) = false := by
      simp [jsDefinedTruthy, jsIsString, JSValue.truthy, JSValue.isStr, hne]
    simp only [scriptInvoke, hu, hv, Bool.false_eq_true, if_false, hb, hauth,
      revokeUserSessions, doFetch, hr, hok]
  · intro body es hj hes
    by_cases he : es = ""
    · rw [he]
      exact jsIncludes_empty _
    · have ht : jsTruthyStr (some es) = true := by
        simp [jsTruthyStr, he]
      have hmsg : revokeFailMessage r = "Failed to revoke sessions: " ++ es := by
        simp [revokeFailMessage, hj, hes, ht]
      rw [hmsg]
      exact jsIncludes_append "Failed to revoke sessions: " es
  · intro hj
    simp [revokeFailMessage, hj]
  · intro body hj htr
    simp [revokeFailMessage, hj, htr]

/-- Witness for C6: a 404 with an `errorSummary` body. -/
theorem invoke_nonok_response_witness :
    (scriptInvoke { userId := some (.str "u1") } ctxBearer (fun _ => resp404)).1 =
      .error ⟨revokeFailMessage resp404, some resp404.status⟩ ∧
    (∀ body es, resp404.json = some body → body.errorSummary = some es →
      jsIncludes (revokeFailMessage resp404) es = true) ∧
    (resp404.json = none →
      revokeFailMessage resp404 = "Failed to revoke sessions: HTTP " ++ toString resp404.status) ∧
    (∀ body, resp404.json = some body → jsTruthyStr body.errorSummary = false →
      revokeFailMessage resp404 = "Failed to revoke sessions: HTTP " ++ toString resp404.status) :=
  invoke_nonok_response { userId := some (.str "u1") } ctxBearer (fun _ => resp404)
    "u1" "https://x.okta.com" "Bearer tok1" {} resp404 rfl (by decide) (by rfl) (by rfl)
    rfl rfl

/-- Claim C4: credential resolution is first-match-wins in the fixed
order Bearer, Basic, OAuth2 auth-code token, OAuth2 client credentials:
whenever more than one method is configured, no error is raised and the
produced header is the one of the first configured (hence resolvable)
method in that order. -/
theorem auth_first_match_wins (ctx : Context) (oracle : Nat → Response)
    (h2 : 2 ≤ (resolutionOrder.filter (configured ctx.secretsOrEmpty)).length) :
    ∃ m, firstConfigured ctx.secretsOrEmpty = some m ∧ m ≠ AuthMethod.oauthCC ∧
      getAuthorizationHeader ctx oracle {} =
        (.ok ((methodHeader ctx.secretsOrEmpty m).getD ""), ({} : Trace)) := by
  cases hb1 : jsTruthyStr (ctx.secretsOrEmpty).BEARER_AUTH_TOKEN with
  | true =>
    refine ⟨.bearer, ?_, by simp, ?_⟩
    · simp [firstConfigured, resolutionOrder, List.find?, configured, hb1]
    · simp [getAuthorizationHeader, hb1, methodHeader]
  | false =>
    cases hb2 : jsTruthyStr (ctx.secretsOrEmpty).BASIC_PASSWORD &&
        jsTruthyStr (ctx.secretsOrEmpty).BASIC_USERNAME with
    | true =>
      refine ⟨.basic, ?_, by simp, ?_⟩
      · simp [firstConfigured, resolutionOrder, List.find?, configured, hb1, hb2]
      · simp [getAuthorizationHeader, hb1, hb2, methodHeader]
    | false =>
      cases hb3 : jsTruthyStr (ctx.secretsOrEmpty).OAUTH2_AUTHORIZATION_CODE_ACCESS_TOKEN with
      | true =>
        refine ⟨.oauthCode, ?_, by simp, ?_⟩
        · simp [firstConfigured, resolutionOrder, List.find?, configured, hb1, hb2, hb3]
        · simp [getAuthorizationHeader, hb1, hb2, hb3, methodHeader]
      | false =>
        exfalso
        cases hb4 : jsTruthyStr (ctx.secretsOrEmpty).OAUTH2_CLIENT_CREDENTIALS_CLIENT_SECRET with
        | true =>
          simp [resolutionOrder, List.filter, configured, hb1, hb2, hb3, hb4] at h2
        | false =>
          simp [resolutionOrder, List.filter, configured, hb1, hb2, hb3, hb4] at h2

/-- Witness for C4: Bearer and Basic both configured resolve to the
Bearer header. -/
theorem auth_first_match_wins_witness :
    ∃ m, firstConfigured ctxTwoMethods.secretsOrEmpty = some m ∧
      m ≠ AuthMethod.oauthCC ∧
      getAuthorizationHeader ctxTwoMethods oracle204 {} =
        (.ok ((methodHeader ctxTwoMethods.secretsOrEmpty m).getD ""), ({} : Trace)) :=
  auth_first_match_wins ctxTwoMethods oracle204 (by decide)

/-- Claim C10: the backoff overrides are read from the context field
`env` while base-URL resolution reads the field `environment`: whenever
`env` is absent, both backoff durations equal their defaults (30000 ms
and 10000 ms) no matter what `environment` contains — including
`RATE_LIMIT_BACKOFF_MS`/`SERVICE_ERROR_BACKOFF_MS` keys — while
`getBaseUrl` still resolves the address from `environment`. -/
theorem backoff_env_not_environment (ctx : Context) (h : ctx.env = none) :
    rateLimitBackoffMs ctx = some 30000 ∧ serviceErrorBackoffMs ctx = some 10000 ∧
    (∀ e a, ctx.environment = some e → e.ADDRESS = some a → a ≠ "" →
      getBaseUrl none ctx = .ok (if jsEndsWith a "/" then a.dropRight 1 else a)) := by
  have h30 : parseIntJS "30000" = some 30000 := by decide
  have h10 : parseIntJS "10000" = some 10000 := by decide
  refine ⟨?_, ?_, ?_⟩
  · simp [rateLimitBackoffMs, h, jsOrStr, h30]
  · simp [serviceErrorBackoffMs, h, jsOrStr, h10]
  · intro e a he ha hne
    simp [getBaseUrl, Context.environmentOrEmpty, he, ha, jsTruthyStr, hne]

/-- Witness for C10: `env` absent, `environment` carrying backoff keys. -/
theorem backoff_env_not_environment_witness :
    rateLimitBackoffMs ctxEnvAbsent = some 30000 ∧
    serviceErrorBackoffMs ctxEnvAbsent = some 10000 ∧
    (∀ e a, ctxEnvAbsent.environment = some e → e.ADDRESS = some a → a ≠ "" →
      getBaseUrl none ctxEnvAbsent = .ok (if jsEndsWith a "/" then a.dropRight 1 else a)) :=
  backoff_env_not_environment ctxEnvAbsent rfl

/-- Counterexample to claim C3 as stated: a non-numeric override does
NOT fall back to the default — `parseInt` yields `NaN` (modelled `none`),
which is what the handler then uses as the delay. -/
theorem backoff_nonnumeric_counterexample :
    rateLimitBackoffMs ctxBadBackoff = none ∧
    serviceErrorBackoffMs ctxBadBackoff = none ∧
    ¬ rateLimitBackoffMs ctxBadBackoff = some 30000 ∧
    ¬ serviceErrorBackoffMs ctxBadBackoff = some 10000 := by
  decide

/-- Claim C3 (amended): the two backoff durations default to 30000 ms and
10000 ms, are overridable via the environment and parsed as integers;
a missing or empty value falls back to the default, but a non-numeric
value yields `NaN` (modelled as `none`) rather than the default. -/
theorem backoff_defaults_and_overrides :
    (∀ ctx : Context, ctx.env.bind EnvBundle.RATE_LIMIT_BACKOFF_MS = none →
      rateLimitBackoffMs ctx = some 30000) ∧
    (∀ ctx : Context, ctx.env.bind EnvBundle.RATE_LIMIT_BACKOFF_MS = some "" →
      rateLimitBackoffMs ctx = some 30000) ∧
    (∀ ctx : Context, ctx.env.bind EnvBundle.SERVICE_ERROR_BACKOFF_MS = none →
      serviceErrorBackoffMs ctx = some 10000) ∧
    (∀ ctx : Context, ctx.env.bind EnvBundle.SERVICE_ERROR_BACKOFF_MS = some "" →
      serviceErrorBackoffMs ctx = some 10000) ∧
    (∀ (ctx : Context) (v : String),
      ctx.env.bind EnvBundle.RATE_LIMIT_BACKOFF_MS = some v → v ≠ "" →
      rateLimitBackoffMs ctx = parseIntJS v) ∧
    (∀ (ctx : Context) (v : String),
      ctx.env.bind EnvBundle.SERVICE_ERROR_BACKOFF_MS = some v → v ≠ "" →
      serviceErrorBackoffMs ctx = parseIntJS v) := by
  have h30 : parseIntJS "30000" = some 30000 := by decide
  have h10 : parseIntJS "10000" = some 10000 := by decide
  refine ⟨?_, ?_, ?_, ?_, ?_, ?_⟩
  · intro ctx hv
    simp [rateLimitBackoffMs, hv, jsOrStr, h30]
  · intro ctx hv
    simp [rateLimitBackoffMs, hv, jsOrStr, h30]
  · intro ctx hv
    simp [serviceErrorBackoffMs, hv, jsOrStr, h10]
  · intro ctx hv
    simp [serviceErrorBackoffMs, hv, jsOrStr, h10]
  · intro ctx v hv hne
    simp [rateLimitBackoffMs, hv, jsOrStr, hne]
  · intro ctx v hv hne
    simp [serviceErrorBackoffMs, hv, jsOrStr, hne]

/-- Witness for C3 (amended): defaults when missing, override parsed. -/
theorem backoff_defaults_and_overrides_witness :
    rateLimitBackoffMs {} = some 30000 ∧
    serviceErrorBackoffMs {} = some 10000 ∧
    rateLimitBackoffMs ctx42 = parseIntJS "42000" :=
  ⟨backoff_defaults_and_overrides.1 {} rfl,
   backoff_defaults_and_overrides.2.2.1 {} rfl,
   backoff_defaults_and_overrides.2.2.2.2.1 ctx42 "42000" rfl (by decide)⟩

/-- Counterexample to claim C1 as stated: with OAuth2 client credentials
configured, the recovery handler re-resolves credentials before
classifying, issuing one HTTP call (the token exchange) even though the
prior failure (401, message "Unauthorized") is unrecoverable — not the
zero calls the claim requires. -/
theorem unrecoverable_zero_calls_counterexample :
    isRateLimited err401 = false ∧ isServiceErrorStatus err401 = false ∧
    (scriptError { error := err401, userId := "u1" } ctxCC (fun _ => tokenOkResp)).1 =
      .error ⟨unrecoverableMessage "u1" "Unauthorized", none⟩ ∧
    (scriptError { error := err401, userId := "u1" } ctxCC
      (fun _ => tokenOkResp)).2.calls.length = 1 := by
  exact ⟨by decide, by decide, by rfl, by rfl⟩

/-- Claim C1 (amended): for a prior failure that is neither rate-limited
nor a 502/503/504, once base-URL and credential resolution succeed the
handler fails with exactly `Unrecoverable error revoking sessions for
user <userId>: <original message>` and issues no calls beyond those of
credential re-resolution — zero when a fetch-free method (e.g. Bearer)
is configured. -/
theorem errorHandler_unrecoverable (p : ErrorParams) (ctx : Context)
    (oracle : Nat → Response) (b h : String) (t1 : Trace)
    (hrate : isRateLimited p.error = false)
    (hsvc : isServiceErrorStatus p.error = false)
    (hb : getBaseUrl p.address ctx = .ok b)
    (hauth : getAuthorizationHeader ctx oracle {} = (.ok h, t1)) :
    scriptError p ctx oracle =
      (.error ⟨unrecoverableMessage p.userId p.error.message, none⟩, t1) ∧
    (jsTruthyStr (ctx.secretsOrEmpty).BEARER_AUTH_TOKEN = true → t1.calls = []) := by
  constructor
  · simp only [scriptError, hb, hauth, hrate, Bool.false_eq_true, if_false,
      errorTail, hsvc]
  · intro hbear
    have h2 := getAuthorizationHeader_bearer ctx oracle {} hbear
    rw [h2] at hauth
    have h3 := congrArg Prod.snd hauth
    simp only at h3
    rw [← h3]

/-- Witness for C1 (amended): 401 with Bearer config — zero calls. -/
theorem errorHandler_unrecoverable_witness :
    scriptError { error := err401, userId := "u1" } ctxBearer oracle204 =
      (.error ⟨unrecoverableMessage "u1" err401.message, none⟩, ({} : Trace)) ∧
    (jsTruthyStr (ctxBearer.secretsOrEmpty).BEARER_AUTH_TOKEN = true →
      ({} : Trace).calls = []) :=
  errorHandler_unrecoverable { error := err401, userId := "u1" } ctxBearer oracle204
    "https://x.okta.com" "Bearer tok1" {} (by decide) (by decide) (by rfl) (by rfl)

/-- Counterexample to claim C7 as stated: a failure classified
RATE_LIMIT by its message but carrying statusCode 503 whose retry fails
does NOT fall through to the unrecoverable outcome — it falls into the
service-error branch, retries again and here succeeds with
`recoveryMethod = service_retry`. -/
theorem rate_limit_fallthrough_counterexample :
    isRateLimited err503rl = true ∧
    (oracleFailThenOk 0).ok = false ∧
    (scriptError { error := err503rl, userId := "u1" } ctxBearer oracleFailThenOk).1 =
      .ok { userId := "u1", sessionsRevoked := true, address := "https://x.okta.com",
            recoveryMethod := some "service_retry" } ∧
    (scriptError { error := err503rl, userId := "u1" }
      ctxBearer oracleFailThenOk).2.calls.length = 2 := by
  exact ⟨by decide, by rfl, by rfl, by rfl⟩

/-- Claim C7 (amended): for a RATE_LIMIT-classified failure with target
and credentials resolved, the handler sleeps the rate-limit backoff
first, retries the revocation once with the freshly resolved target and
credentials, returns success tagged `rate_limit_retry` when the retry is
ok, and when the retry fails it falls through to the unrecoverable
outcome provided the original statusCode is not 502/503/504 (otherwise
it falls into the service-error branch instead). -/
theorem errorHandler_rate_limit_branch (p : ErrorParams) (ctx : Context)
    (oracle : Nat → Response) (b h : String) (t1 : Trace)
    (hrl : isRateLimited p.error = true)
    (hb : getBaseUrl p.address ctx = .ok b)
    (hauth : getAuthorizationHeader ctx oracle {} = (.ok h, t1)) :
    (scriptError p ctx oracle).2.sleeps.head? = some (rateLimitBackoffMs ctx) ∧
    ((oracle t1.calls.length).ok = true →
      scriptError p ctx oracle =
        (.ok { userId := p.userId, sessionsRevoked := true, address := b,
               recoveryMethod := some "rate_limit_retry" },
         { calls := t1.calls ++
             [Request.mk (b ++ "/api/v1/users/" ++ encodeURIComponent p.userId ++
               "/sessions") "DELETE" (some (applySSWS h)) none],
           sleeps := t1.sleeps ++ [rateLimitBackoffMs ctx] })) ∧
    ((oracle t1.calls.length).ok = false → isServiceErrorStatus p.error = false →
      scriptError p ctx oracle =
        (.error ⟨unrecoverableMessage p.userId p.error.message, none⟩,
         { calls := t1.calls ++
             [Request.mk (b ++ "/api/v1/users/" ++ encodeURIComponent p.userId ++
               "/sessions") "DELETE" (some (applySSWS h)) none],
           sleeps := t1.sleeps ++ [rateLimitBackoffMs ctx] })) := by
  have hsl : t1.sleeps = [] := by
    have h2 := getAuthorizationHeader_sleeps ctx oracle {}
    rw [hauth] at h2
    exact h2
  refine ⟨?_, ?_, ?_⟩
  · simp only [scriptError, hb, hauth, hrl, if_true, doSleep, revokeUserSessions,
      doFetch, errorTail]
    split
    · simp [hsl]
    · split
      · split <;> simp [hsl]
      · simp [hsl]
  · intro hok
    simp only [scriptError, hb, hauth, hrl, if_true, doSleep, revokeUserSessions,
      doFetch]
    simp [hok]
  · intro hok hsvc
    simp only [scriptError, hb, hauth, hrl, if_true, doSleep, revokeUserSessions,
      doFetch]
    simp [hok, errorTail, hsvc]

/-- Witness for C7 (amended): a 429 failure whose retry succeeds. -/
theorem errorHandler_rate_limit_branch_witness :
    (scriptError { error := err429, userId := "u1" } ctxBearer oracle204).2.sleeps.head? =
      some (rateLimitBackoffMs ctxBearer) ∧
    ((oracle204 ({} : Trace).calls.length).ok = true →
      scriptError { error := err429, userId := "u1" } ctxBearer oracle204 =
        (.ok { userId := "u1", sessionsRevoked := true, address := "https://x.okta.com",
               recoveryMethod := some "rate_limit_retry" },
         { calls := ({} : Trace).calls ++
             [Request.mk ("https://x.okta.com" ++ "/api/v1/users/" ++
               encodeURIComponent "u1" ++ "/sessions") "DELETE"
               (some (applySSWS "Bearer tok1")) none],
           sleeps := ({} : Trace).sleeps ++ [rateLimitBackoffMs ctxBearer] })) ∧
    ((oracle204 ({} : Trace).calls.length).ok = false →
      isServiceErrorStatus err429 = false →
      scriptError { error := err429, userId := "u1" } ctxBearer oracle204 =
        (.error ⟨unrecoverableMessage "u1" err429.message, none⟩,
         { calls := ({} : Trace).calls ++
             [Request.mk ("https://x.okta.com" ++ "/api/v1/users/" ++
               encodeURIComponent "u1" ++ "/sessions") "DELETE"
               (some (applySSWS "Bearer tok1")) none],
           sleeps := ({} : Trace).sleeps ++ [rateLimitBackoffMs ctxBearer] })) :=
  errorHandler_rate_limit_branch { error := err429, userId := "u1" } ctxBearer
    oracle204 "https://x.okta.com" "Bearer tok1" {} (by decide) (by rfl) (by rfl)

/-- Counterexample to claim C8 as stated: a failure with statusCode 502
whose message contains "429" is retried twice — credential resolution is
fetch-free here (empty resolution trace), and the handler issues two
DELETE calls, not at most one. -/
theorem retry_budget_counterexample :
    (getAuthorizationHeader ctxBearer oracle429 ({} : Trace)).2.calls = [] ∧
    isRateLimited err502rl = true ∧ isServiceErrorStatus err502rl = true ∧
    (scriptError { error := err502rl, userId := "u1" }
      ctxBearer oracle429).2.calls.length = 2 := by
  exact ⟨by rfl, by decide, by decide, by rfl⟩

/-- Claim C8 (amended): the recovery handler performs at most one retry
per classification branch, hence at most two in total; exactly two occur
only for a failure classified both rate-limited (via its message) and
502/503/504 (via its statusCode); a failure in neither class is never
retried; the retried call's outcome is never re-classified — the result
is either a success tagged with a recovery method or exactly the
unrecoverable error wrapping the original message. -/
theorem errorHandler_retry_budget (p : ErrorParams) (ctx : Context)
    (oracle : Nat → Response) (b h : String) (t1 : Trace)
    (hb : getBaseUrl p.address ctx = .ok b)
    (hauth : getAuthorizationHeader ctx oracle {} = (.ok h, t1)) :
    (scriptError p ctx oracle).2.calls.length ≤ t1.calls.length + 2 ∧
    (isServiceErrorStatus p.error = false →
      (scriptError p ctx oracle).2.calls.length ≤ t1.calls.length + 1) ∧
    (isRateLimited p.error = false → isServiceErrorStatus p.error = false →
      (scriptError p ctx oracle).2.calls.length = t1.calls.length) ∧
    ((scriptError p ctx oracle).2.calls.length = t1.calls.length + 2 →
      isRateLimited p.error = true ∧ isServiceErrorStatus p.error = true) ∧
    ((scriptError p ctx oracle).1 =
        .error ⟨unrecoverableMessage p.userId p.error.message, none⟩ ∨
      ∃ res : InvokeResult, (scriptError p ctx oracle).1 = .ok res ∧
        (res.recoveryMethod = some "rate_limit_retry" ∨
         res.recoveryMethod = some "service_retry")) := by
  simp only [scriptError, hb, hauth]
  by_cases hrl : isRateLimited p.error = true
  · by_cases hok : (oracle t1.calls.length).ok = true
    · simp [hrl, hok, doSleep, revokeUserSessions, doFetch]
    · by_cases hsvc : isServiceErrorStatus p.error = true
      · by_cases hok2 : (oracle (t1.calls.length + 1)).ok = true
        · simp [hrl, hok, hsvc, hok2, doSleep, revokeUserSessions, doFetch, errorTail]
        · simp [hrl, hok, hsvc, hok2, doSleep, revokeUserSessions, doFetch, errorTail]
      · simp [hrl, hok, hsvc, doSleep, revokeUserSessions, doFetch, errorTail]
  · by_cases hsvc : isServiceErrorStatus p.error = true
    · by_cases hok : (oracle t1.calls.length).ok = true
      · simp [hrl, hok, hsvc, doSleep, revokeUserSessions, doFetch, errorTail]
      · simp [hrl, hok, hsvc, doSleep, revokeUserSessions, doFetch, errorTail]
    · simp [hrl, hsvc, doSleep, revokeUserSessions, doFetch, errorTail]

/-- Witness for C8 (amended): a 401 failure with Bearer config is never
retried and ends unrecoverable. -/
theorem errorHandler_retry_budget_witness :
    (scriptError { error := err401, userId := "u1" }
      ctxBearer oracle204).2.calls.length ≤ ({} : Trace).calls.length + 2 :=
  (errorHandler_retry_budget { error := err401, userId := "u1" } ctxBearer oracle204
    "https://x.okta.com" "Bearer tok1" {} (by rfl) (by rfl)).1

end OktaRevoke
